import Mathlib

/-!
Verification of the commission-reconciliation core of the
betterchoicesales repository.

The statements below are shallow embeddings of the reconciliation
frontend (src/frontend/src/pages/statements.tsx and the API client in
src/unnamed/part_004).  JavaScript numbers are modelled as rationals;
fields the code tests for JavaScript truthiness are modelled as
Option Rat, with none for an absent value.  Backend components that
are not present in the repository sources (the payroll state machine,
the tier resolver and the commission calculator services) are modelled
from the specification; their doc comments say so explicitly.
-/

namespace BetterChoice

/-
Part 1: the monthly-pay adjusted-commission computation
(MonthlyPayView in statements.tsx).
-/

/-- One agent entry of the monthly-pay response as consumed by the
MonthlyPayView component of statements.tsx.  Numeric fields that the
code tests for JavaScript truthiness are Option Rat; an absent or
null field is none. -/
structure AgentSummary where
  agent_id : Nat
  net_agent_commission : Option Rat
  total_agent_commission : Rat
  commission_rate : Option Rat
deriving Repr, DecidableEq

/-- JavaScript a || b on an optional number: the right operand is
used when the left value is absent or zero (both are falsy). -/
def jsOrElse (x : Option Rat) (y : Rat) : Rat :=
  match x with
  | none => y
  | some v => if v = 0 then y else v

/-- The basePay binding of getAdjustedCommission in statements.tsx:
agent.net_agent_commission || agent.total_agent_commission. -/
def basePay (a : AgentSummary) : Rat :=
  jsOrElse a.net_agent_commission a.total_agent_commission

/-- getAdjustedCommission from MonthlyPayView in statements.tsx.
adj and bonus are the values of getAdjustment and getBonus for the
agent, which default to zero when no override was entered.  The
source returns basePay + bonus when adj is zero or when the base
rate is falsy (absent or zero), and otherwise rescales the
commissionable premium base basePay / baseRate by the adjusted
rate. -/
def getAdjustedCommission (a : AgentSummary) (adj bonus : Rat) : Rat :=
  let bp := basePay a
  if adj = 0 then bp + bonus
  else
    match a.commission_rate with
    | none => bp + bonus
    | some r => if r = 0 then bp + bonus else bp / r * (r + adj) + bonus

/-- The map lookup rateAdjustments[agentId] || 0 used by
getAdjustment and getBonus in MonthlyPayView: association-list
lookup defaulting to zero. -/
def lookupOr0 (m : List (Nat × Rat)) (id : Nat) : Rat :=
  match m.lookup id with
  | none => 0
  | some v => v

/-
Theorems for claims C1 and C9.
-/

/-- C1: for every agent summary with a nonzero base commission rate,
the net agent pay after a manual rate adjustment equals the
commissionable premium base (base pay divided by the base rate)
multiplied by (base rate + rate adjustment), plus the flat bonus;
and with a zero rate adjustment it equals base pay plus bonus. -/
theorem adjusted_commission_formula (a : AgentSummary) (r adj bonus : Rat)
    (hr : a.commission_rate = some r) (hr0 : r ≠ 0) :
    getAdjustedCommission a adj bonus = basePay a / r * (r + adj) + bonus ∧
    getAdjustedCommission a 0 bonus = basePay a + bonus := by
  constructor
  · by_cases hadj : adj = 0
    · subst hadj
      have h2 : getAdjustedCommission a 0 bonus = basePay a + bonus := by
        simp [getAdjustedCommission]
      rw [h2, add_zero, div_mul_cancel₀ _ hr0]
    · simp [getAdjustedCommission, hadj, hr, hr0]
  · simp [getAdjustedCommission]

/-- Witness for C1 at a concrete agent with a 10 percent base rate. -/
theorem adjusted_commission_formula_witness :
    getAdjustedCommission ⟨1, some 100, 0, some (1/10)⟩ 0 20
      = basePay ⟨1, some 100, 0, some (1/10)⟩ + 20 :=
  (adjusted_commission_formula ⟨1, some 100, 0, some (1/10)⟩ (1/10) 0 20
    rfl (by norm_num)).2

/-- C9: if the base commission rate is zero or missing, the adjusted
commission is base pay plus bonus for every rate adjustment — the
division by the rate is never performed and a nonzero adjustment is
silently ignored. -/
theorem zero_rate_ignores_adjustment (a : AgentSummary) (adj bonus : Rat)
    (h : a.commission_rate = none ∨ a.commission_rate = some 0) :
    getAdjustedCommission a adj bonus = basePay a + bonus := by
  rcases h with h | h <;> by_cases hadj : adj = 0 <;>
    simp [getAdjustedCommission, h, hadj]

/-- Witness for C9 at a concrete agent with a missing rate and a
nonzero rate adjustment. -/
theorem zero_rate_ignores_adjustment_witness :
    getAdjustedCommission ⟨2, none, 50, none⟩ (5/1000) 10
      = basePay ⟨2, none, 50, none⟩ + 10 :=
  zero_rate_ignores_adjustment ⟨2, none, 50, none⟩ (5/1000) 10 (Or.inl rfl)

/-
Part 2: statement upload (duplicate advisory, carrier auto-detection
advisory) and the match entrypoint response, from the Statements page
of statements.tsx.
-/

/-- String append is associative; used to reason about the advisory
messages built by concatenation. -/
theorem strAppend_assoc (a b c : String) : a ++ b ++ c = a ++ (b ++ c) := by
  cases a; cases b; cases c
  show String.mk _ = String.mk _
  simp [String.append, List.append_assoc]

/-- The string s contains sub as a contiguous substring. -/
def hasSubstring (s sub : String) : Prop := ∃ a b, s = a ++ (sub ++ b)

/-- The CARRIERS dropdown of the Statements page: value and display
label pairs, in source order. -/
def CARRIERS : List (String × String) :=
  [("national_general", "National General"),
   ("progressive", "Progressive"),
   ("grange", "Grange"),
   ("safeco", "Safeco"),
   ("travelers", "Travelers"),
   ("geico", "Geico"),
   ("first_connect", "First Connect"),
   ("universal", "Universal"),
   ("nbs", "NBS / Bridge Specialty"),
   ("hartford", "Hartford"),
   ("other", "Other")]

/-- The label lookup used by handleUpload:
CARRIERS.find with the carrier value, falling back to the raw value
when no entry matches. -/
def carrierLabel (v : String) : String :=
  match CARRIERS.find? (fun c => c.1 == v) with
  | some c => c.2
  | none => v

/-- An import summary as listed by the Statements page. -/
structure ImportRecord where
  id : Nat
  carrier : String
  period : String
  status : String
  total_rows : Nat
  matched_rows : Nat
deriving Repr, DecidableEq

/-- The duplicate check of handleUpload: find a record among the
listed imports with the selected carrier and period. -/
def findDuplicate (imports : List ImportRecord) (carrier period : String) :
    Option ImportRecord :=
  imports.find? (fun i => i.carrier == carrier && i.period == period)

/-- Outcome of the upload form flow: whether the caller was warned
about a duplicate and whether the upload request is sent. -/
structure UploadDecision where
  warned : Bool
  proceeds : Bool
deriving Repr, DecidableEq

/-- The control flow of handleUpload before the request is sent: when
an import for the same carrier and period exists, a confirm dialog is
shown (warned); the upload is sent when the user confirms, and always
sent when there is no duplicate. -/
def uploadDecision (imports : List ImportRecord) (carrier period : String)
    (userConfirms : Bool) : UploadDecision :=
  match findDuplicate imports carrier period with
  | some _ => { warned := true, proceeds := userConfirms }
  | none => { warned := false, proceeds := true }

/-- The duplicate warning panel of the Statements page renders exactly
when an import with the selected carrier and period already exists. -/
def showsDuplicateWarning (imports : List ImportRecord)
    (carrier period : String) : Bool :=
  (findDuplicate imports carrier period).isSome

/-- The upload-response fields consumed by handleUpload. -/
structure UploadResponse where
  id : Nat
  carrier_overridden : Bool
  carrier_detected : String
  carrier_selected : String
deriving Repr, DecidableEq

/-- The alert text handleUpload builds when the backend reports that
auto-detection overrode the selected carrier. -/
def overrideAdvisoryMsg (detected selected : String) : String :=
  "Auto-detected: File looks like " ++ (detected ++ (" (you selected " ++
    (selected ++ ("). Used " ++ (detected ++ " parser.")))))

/-- What handleUpload does with a successful upload response: surface
the advisory (when carrier_overridden) and proceed to select the
newly created import by its id. -/
def processUploadResponse (r : UploadResponse) : Option String × Nat :=
  (if r.carrier_overridden then
     some (overrideAdvisoryMsg (carrierLabel r.carrier_detected)
       (carrierLabel r.carrier_selected))
   else none,
   r.id)

/-- The match-entrypoint response fields consumed by handleMatch in
statements.tsx: res.data.matched, res.data.newly_matched (with a
zero fallback) and res.data.unmatched. -/
structure MatchResponse where
  matched : Nat
  newly_matched : Option Nat
  unmatched : Nat
deriving Repr, DecidableEq

/-- The names of the match-response fields handleMatch reads, in
reading order. -/
def matchResponseKeys : List String := ["matched", "newly_matched", "unmatched"]

/-- The result message handleMatch shows to the caller. -/
def matchMessage (r : MatchResponse) : String :=
  "Matched: " ++ (toString r.matched ++ (" total (" ++
    (toString (r.newly_matched.getD 0) ++ (" new), Unmatched: " ++
      toString r.unmatched))))

/-
Theorems for claims C5, C6 and C7.
-/

/-- C5 counterexample: the match response consumed by the caller has
no field named matched_total; the total count field is named
matched. -/
theorem match_shape_counterexample :
    "matched_total" ∉ matchResponseKeys ∧ "matched" ∈ matchResponseKeys := by
  decide

/-- C5 amended: the Policy Matcher run returns the updated match
counts in the shape with fields matched, newly_matched and unmatched,
and the message handleMatch builds reports all three counts, so the
caller can distinguish net re-matching effects from the first run. -/
theorem match_counts_shape :
    matchResponseKeys = ["matched", "newly_matched", "unmatched"] ∧
    ∀ r : MatchResponse,
      hasSubstring (matchMessage r) (toString r.matched) ∧
      hasSubstring (matchMessage r) (toString (r.newly_matched.getD 0)) ∧
      hasSubstring (matchMessage r) (toString r.unmatched) := by
  refine ⟨rfl, fun r => ⟨⟨"Matched: ", ?_, ?_⟩, ?_, ?_⟩⟩
  · exact " total (" ++ (toString (r.newly_matched.getD 0) ++
      (" new), Unmatched: " ++ toString r.unmatched))
  · rfl
  · refine ⟨"Matched: " ++ (toString r.matched ++ " total ("),
      " new), Unmatched: " ++ toString r.unmatched, ?_⟩
    simp only [matchMessage, strAppend_assoc]
  · refine ⟨"Matched: " ++ (toString r.matched ++ (" total (" ++
      (toString (r.newly_matched.getD 0) ++ " new), Unmatched: "))), "", ?_⟩
    have h : toString r.unmatched ++ "" = toString r.unmatched := by
      cases toString r.unmatched
      show String.mk _ = String.mk _
      simp [String.append]
    rw [h]
    simp only [matchMessage, strAppend_assoc]

/-- C6: an upload for a carrier and period that already has an import
warns the caller, the warning panel is shown, and the upload still
proceeds when the caller continues — a second import can be
created. -/
theorem duplicate_upload_advisory (imports : List ImportRecord)
    (carrier period : String) (i : ImportRecord)
    (h : findDuplicate imports carrier period = some i) :
    (∀ b, (uploadDecision imports carrier period b).warned = true) ∧
    (uploadDecision imports carrier period true).proceeds = true ∧
    showsDuplicateWarning imports carrier period = true := by
  refine ⟨fun b => ?_, ?_, ?_⟩ <;>
    simp [uploadDecision, showsDuplicateWarning, h]

/-- Witness for C6: a concrete import list already holding a
progressive import for 2024-01. -/
theorem duplicate_upload_advisory_witness :
    (∀ b, (uploadDecision [⟨1, "progressive", "2024-01", "processed", 10, 8⟩]
      "progressive" "2024-01" b).warned = true) ∧
    (uploadDecision [⟨1, "progressive", "2024-01", "processed", 10, 8⟩]
      "progressive" "2024-01" true).proceeds = true ∧
    showsDuplicateWarning [⟨1, "progressive", "2024-01", "processed", 10, 8⟩]
      "progressive" "2024-01" = true :=
  duplicate_upload_advisory _ "progressive" "2024-01"
    ⟨1, "progressive", "2024-01", "processed", 10, 8⟩ rfl

/-- C7: when auto-detection overrode the selected carrier, the
advisory message reports both the detected and the selected carrier
labels, and the flow still proceeds to select the created import
rather than failing. -/
theorem carrier_mismatch_advisory (r : UploadResponse)
    (h : r.carrier_overridden = true) :
    ∃ msg, (processUploadResponse r).1 = some msg ∧
      hasSubstring msg (carrierLabel r.carrier_detected) ∧
      hasSubstring msg (carrierLabel r.carrier_selected) ∧
      (processUploadResponse r).2 = r.id := by
  refine ⟨overrideAdvisoryMsg (carrierLabel r.carrier_detected)
    (carrierLabel r.carrier_selected), by simp [processUploadResponse, h],
    ⟨"Auto-detected: File looks like ",
     " (you selected " ++ (carrierLabel r.carrier_selected ++
       ("). Used " ++ (carrierLabel r.carrier_detected ++ " parser."))),
     rfl⟩, ?_, rfl⟩
  · refine ⟨"Auto-detected: File looks like " ++
      (carrierLabel r.carrier_detected ++ " (you selected "),
      "). Used " ++ (carrierLabel r.carrier_detected ++ " parser."), ?_⟩
    simp only [overrideAdvisoryMsg, strAppend_assoc]

/-- Witness for C7: a concrete overridden upload response. -/
theorem carrier_mismatch_advisory_witness :
    ∃ msg, (processUploadResponse ⟨5, true, "progressive", "grange"⟩).1
        = some msg ∧
      hasSubstring msg (carrierLabel "progressive") ∧
      hasSubstring msg (carrierLabel "grange") ∧
      (processUploadResponse ⟨5, true, "progressive", "grange"⟩).2 = 5 :=
  carrier_mismatch_advisory ⟨5, true, "progressive", "grange"⟩ rfl

/-
Part 3: manual override plumbing (PayrollActions.handleSubmit, the
agent-sheet request parameters of the API client in part_004, and the
PDF download parameters of AgentSheetModal).
-/

/-- Key of an association-list is present when a lookup yields a
value. -/
theorem mem_keys_of_lookup {m : List (Nat × Rat)} {id : Nat} {v : Rat}
    (h : m.lookup id = some v) : id ∈ m.map Prod.fst := by
  induction m with
  | nil => simp [List.lookup] at h
  | cons p t ih =>
    obtain ⟨k, b⟩ := p
    by_cases hk : id = k
    · simp [hk]
    · have hne : (id == k) = false := by simp [hk]
      rw [List.lookup, hne] at h
      simp only [List.map, List.mem_cons]
      exact Or.inr (ih h)

/-- A nonzero defaulted lookup means the key is present. -/
theorem mem_keys_of_lookupOr0 {m : List (Nat × Rat)} {id : Nat}
    (h : lookupOr0 m id ≠ 0) : id ∈ m.map Prod.fst := by
  unfold lookupOr0 at h
  cases hm : m.lookup id with
  | none => rw [hm] at h; exact absurd rfl h
  | some v => exact mem_keys_of_lookup hm

/-- The agent_overrides body built by handleSubmit in PayrollActions:
over the union of agent ids appearing in either override map, an
entry is pushed exactly when the rate adjustment or the bonus for
that agent is nonzero. -/
def buildAgentOverrides (rateAdjustments bonuses : List (Nat × Rat)) :
    List (Nat × Rat × Rat) :=
  ((rateAdjustments.map Prod.fst ++ bonuses.map Prod.fst).dedup).filterMap
    (fun id =>
      let adj := lookupOr0 rateAdjustments id
      let bon := lookupOr0 bonuses id
      if adj ≠ 0 ∨ bon ≠ 0 then some (id, adj, bon) else none)

/-- JavaScript truthiness of an optional number argument. -/
def jsTruthy (x : Option Rat) : Bool :=
  match x with
  | none => false
  | some v => v != 0

/-- The query parameters attached by reconciliationAPI.agentSheet in
the API client: each of rate_adjustment and bonus is included exactly
when the optional argument is truthy. -/
def agentSheetParams (rateAdjustment bonus : Option Rat) :
    List (String × Rat) :=
  (if jsTruthy rateAdjustment then
    [("rate_adjustment", rateAdjustment.getD 0)] else []) ++
  (if jsTruthy bonus then [("bonus", bonus.getD 0)] else [])

/-- The query parameters set by handleDownloadPdf in AgentSheetModal:
each parameter is set exactly when the value differs from zero. -/
def pdfParams (rateAdjustment bonus : Rat) : List (String × Rat) :=
  (if rateAdjustment ≠ 0 then [("rate_adjustment", rateAdjustment)] else []) ++
  (if bonus ≠ 0 then [("bonus", bonus)] else [])

/-
Part 4: payroll controls gating in PayrollActions (statements.tsx).
-/

/-- The payroll status fields consumed by PayrollActions. -/
structure PayrollStatusView where
  status : String
  is_locked : Bool
deriving Repr, DecidableEq

/-- PayrollActions offers the Submit Payroll button when no payroll
record exists or the record is not locked. -/
def showSubmitButton (ps : Option PayrollStatusView) : Bool :=
  match ps with
  | none => true
  | some p => !p.is_locked

/-- PayrollActions offers the Mark as Paid button exactly when the
payroll status is submitted. -/
def showMarkPaidButton (ps : Option PayrollStatusView) : Bool :=
  match ps with
  | none => false
  | some p => p.status == "submitted"

/-- PayrollActions offers the Unlock button exactly when the payroll
record is locked. -/
def showUnlockButton (ps : Option PayrollStatusView) : Bool :=
  match ps with
  | none => false
  | some p => p.is_locked

/-
Theorem for claim C10.
-/

/-- C10: zero-valued manual overrides are omitted from requests.  The
payroll submit body has an entry for an agent iff the rate adjustment
or bonus for that agent is nonzero; the agent-sheet request and its
PDF variant include a parameter iff its value is nonzero. -/
theorem zero_overrides_omitted :
    (∀ ra bo : List (Nat × Rat), ∀ id : Nat,
      (∃ adj bon, (id, adj, bon) ∈ buildAgentOverrides ra bo) ↔
        (lookupOr0 ra id ≠ 0 ∨ lookupOr0 bo id ≠ 0)) ∧
    (∀ x y : Option Rat,
      ("rate_adjustment" ∈ (agentSheetParams x y).map Prod.fst ↔
        x.getD 0 ≠ 0) ∧
      ("bonus" ∈ (agentSheetParams x y).map Prod.fst ↔ y.getD 0 ≠ 0)) ∧
    (∀ a b : Rat,
      ("rate_adjustment" ∈ (pdfParams a b).map Prod.fst ↔ a ≠ 0) ∧
      ("bonus" ∈ (pdfParams a b).map Prod.fst ↔ b ≠ 0)) := by
  refine ⟨fun ra bo id => ?_, fun x y => ?_, fun a b => ?_⟩
  · constructor
    · rintro ⟨adj, bon, hmem⟩
      unfold buildAgentOverrides at hmem
      rw [List.mem_filterMap] at hmem
      obtain ⟨k, _, hk⟩ := hmem
      by_cases hc : lookupOr0 ra k ≠ 0 ∨ lookupOr0 bo k ≠ 0
      · simp only [if_pos hc, Option.some.injEq] at hk
        obtain ⟨hk1, _, _⟩ := Prod.mk.injEq .. ▸ hk
        exact hk1 ▸ hc
      · simp [if_neg hc] at hk
    · intro hc
      have hmemkeys : id ∈ (ra.map Prod.fst ++ bo.map Prod.fst).dedup := by
        rw [List.mem_dedup, List.mem_append]
        rcases hc with h | h
        · exact Or.inl (mem_keys_of_lookupOr0 h)
        · exact Or.inr (mem_keys_of_lookupOr0 h)
      refine ⟨lookupOr0 ra id, lookupOr0 bo id, ?_⟩
      unfold buildAgentOverrides
      rw [List.mem_filterMap]
      exact ⟨id, hmemkeys, by simp only [if_pos hc]⟩
  · cases x with
    | none =>
      cases y with
      | none => simp [agentSheetParams, jsTruthy]
      | some w =>
        by_cases hw : w = 0 <;>
          simp [agentSheetParams, jsTruthy, hw]
    | some v =>
      cases y with
      | none =>
        by_cases hv : v = 0 <;>
          simp [agentSheetParams, jsTruthy, hv]
      | some w =>
        by_cases hv : v = 0 <;> by_cases hw : w = 0 <;>
          simp [agentSheetParams, jsTruthy, hv, hw]
  · by_cases ha : a = 0 <;> by_cases hb : b = 0 <;>
      simp [pdfParams, ha, hb]

/-- Witness for C10: a concrete override map with one zero and one
nonzero entry. -/
theorem zero_overrides_omitted_witness :
    ((∃ adj bon, ((7 : Nat), adj, bon) ∈
        buildAgentOverrides [(7, 5/1000), (8, 0)] []) ↔
      (lookupOr0 [(7, 5/1000), (8, 0)] 7 ≠ 0 ∨ lookupOr0 [] 7 ≠ 0)) ∧
    ("bonus" ∈ (agentSheetParams none (some 0)).map Prod.fst ↔
      (some (0 : Rat)).getD 0 ≠ 0) ∧
    ("rate_adjustment" ∈ (pdfParams 0 25).map Prod.fst ↔ (0 : Rat) ≠ 0) :=
  ⟨zero_overrides_omitted.1 [(7, 5/1000), (8, 0)] [] 7,
   (zero_overrides_omitted.2.1 none (some 0)).2,
   (zero_overrides_omitted.2.2 0 25).1⟩

/-
Part 5: the payroll ledger state machine.  The backend payroll
service is not among the repository sources (only its API client and
the PayrollActions controls are), so it is modelled from section 4.5
of the specification.
-/

/-- Modelled from the spec: the payroll lifecycle status of a
PayrollRecord (draft, submitted, paid); the backend payroll service
is missing from the sources. -/
inductive PayrollStatus
  | draft
  | submitted
  | paid
deriving Repr, DecidableEq

/-- Modelled from the spec: the persisted PayrollRecord for one
period (period is unique, so the per-period state is one optional
record); the backend payroll service is missing from the sources. -/
structure PayrollRecord where
  status : PayrollStatus
  is_locked : Bool
  submitted_at : Option Nat
  paid_at : Option Nat
  agent_overrides : List (Nat × Rat × Rat)
deriving Repr, DecidableEq

/-- Modelled from the spec: the PayrollStateConflict error; every
rejection carries a descriptive reason. -/
inductive PayrollError
  | stateConflict (reason : String)
deriving Repr, DecidableEq

/-- The descriptive reason of a payroll rejection. -/
def PayrollError.reason : PayrollError → String
  | .stateConflict r => r

/-- Modelled from the spec: submit(period, agent_overrides) requires
the period not already locked; it persists the override snapshot,
sets status submitted and is_locked, and records submitted_at. -/
def payrollSubmit (s : Option PayrollRecord) (ov : List (Nat × Rat × Rat))
    (now : Nat) : Except PayrollError PayrollRecord :=
  match s with
  | some r =>
    if r.is_locked then
      .error (.stateConflict "period is locked; unlock the period first")
    else
      .ok { status := .submitted, is_locked := true, submitted_at := some now,
            paid_at := r.paid_at, agent_overrides := ov }
  | none =>
      .ok { status := .submitted, is_locked := true, submitted_at := some now,
            paid_at := none, agent_overrides := ov }

/-- Modelled from the spec: mark_paid(period) requires status
submitted; it sets status paid and records paid_at. -/
def payrollMarkPaid (s : Option PayrollRecord) (now : Nat) :
    Except PayrollError PayrollRecord :=
  match s with
  | some r =>
    if r.status = PayrollStatus.submitted then
      .ok { r with status := .paid, paid_at := some now }
    else
      .error (.stateConflict "period was never submitted")
  | none => .error (.stateConflict "period was never submitted")

/-- Modelled from the spec: unlock(period) requires status submitted
or paid; it clears the lock and submitted_at so a fresh submit can
recompute. -/
def payrollUnlock (s : Option PayrollRecord) :
    Except PayrollError PayrollRecord :=
  match s with
  | some r =>
    if r.status = PayrollStatus.submitted ∨ r.status = PayrollStatus.paid then
      .ok { r with is_locked := false, submitted_at := none }
    else
      .error (.stateConflict "period is not submitted")
  | none => .error (.stateConflict "period is not submitted")

/-- A payroll entrypoint invocation. -/
inductive PayrollAction
  | submit (ov : List (Nat × Rat × Rat)) (now : Nat)
  | markPaid (now : Nat)
  | unlock
deriving Repr, DecidableEq

/-- Modelled from the spec: executing one payroll action against the
per-period state; a rejected action returns the error and leaves the
state exactly as it was. -/
def applyPayroll (s : Option PayrollRecord) (a : PayrollAction) :
    Option PayrollRecord × Option PayrollError :=
  match a with
  | .submit ov now =>
    match payrollSubmit s ov now with
    | .ok r => (some r, none)
    | .error e => (s, some e)
  | .markPaid now =>
    match payrollMarkPaid s now with
    | .ok r => (some r, none)
    | .error e => (s, some e)
  | .unlock =>
    match payrollUnlock s with
    | .ok r => (some r, none)
    | .error e => (s, some e)

/-
Theorems for claims C4 and C8.
-/

/-- C4: mark_paid is permitted exactly when the period status is
submitted; submit is permitted exactly when the period is not already
locked; every rejected transition returns a descriptive error and
applies no state change; and the payroll controls offer mark-paid
only for a submitted status, submit only when no record exists or it
is not locked, and unlock only when locked. -/
theorem payroll_transition_guards :
    (∀ (s : Option PayrollRecord) (now : Nat),
      (∃ r2, payrollMarkPaid s now = .ok r2) ↔
        (∃ r, s = some r ∧ r.status = PayrollStatus.submitted)) ∧
    (∀ (s : Option PayrollRecord) (ov : List (Nat × Rat × Rat)) (now : Nat),
      (∃ r2, payrollSubmit s ov now = .ok r2) ↔
        (∀ r, s = some r → r.is_locked = false)) ∧
    (∀ (s : Option PayrollRecord) (a : PayrollAction) (e : PayrollError),
      (applyPayroll s a).2 = some e →
        (applyPayroll s a).1 = s ∧ e.reason ≠ "") ∧
    (∀ ps : Option PayrollStatusView,
      (showMarkPaidButton ps = true ↔
        (∃ p, ps = some p ∧ p.status = "submitted")) ∧
      (showSubmitButton ps = true ↔ (∀ p, ps = some p → p.is_locked = false)) ∧
      (showUnlockButton ps = true ↔ (∃ p, ps = some p ∧ p.is_locked = true))) := by
  refine ⟨fun s now => ?_, fun s ov now => ?_, fun s a e => ?_, fun ps => ?_⟩
  · cases s with
    | none => simp [payrollMarkPaid]
    | some r =>
      by_cases hr : r.status = PayrollStatus.submitted <;>
        simp [payrollMarkPaid, hr]
  · cases s with
    | none => simp [payrollSubmit]
    | some r =>
      cases hl : r.is_locked <;> simp [payrollSubmit, hl]
  · intro h
    cases a with
    | submit ov now =>
      cases hs : payrollSubmit s ov now with
      | ok r => simp [applyPayroll, hs] at h
      | error err =>
        simp only [applyPayroll, hs] at h ⊢
        refine ⟨trivial, ?_⟩
        have : err = e := by simpa using h
        subst this
        cases s with
        | none => simp [payrollSubmit] at hs
        | some r =>
          by_cases hl : r.is_locked
          · rw [payrollSubmit] at hs
            simp only [if_pos hl] at hs
            cases hs
            simp [PayrollError.reason]
          · simp [payrollSubmit, hl] at hs
    | markPaid now =>
      cases hs : payrollMarkPaid s now with
      | ok r => simp [applyPayroll, hs] at h
      | error err =>
        simp only [applyPayroll, hs] at h ⊢
        refine ⟨trivial, ?_⟩
        have : err = e := by simpa using h
        subst this
        cases s with
        | none =>
          rw [payrollMarkPaid] at hs
          cases hs
          simp [PayrollError.reason]
        | some r =>
          by_cases hr : r.status = PayrollStatus.submitted
          · simp [payrollMarkPaid, hr] at hs
          · rw [payrollMarkPaid] at hs
            simp only [if_neg hr] at hs
            cases hs
            simp [PayrollError.reason]
    | unlock =>
      cases hs : payrollUnlock s with
      | ok r => simp [applyPayroll, hs] at h
      | error err =>
        simp only [applyPayroll, hs] at h ⊢
        refine ⟨trivial, ?_⟩
        have : err = e := by simpa using h
        subst this
        cases s with
        | none =>
          rw [payrollUnlock] at hs
          cases hs
          simp [PayrollError.reason]
        | some r =>
          by_cases hr : r.status = PayrollStatus.submitted ∨
              r.status = PayrollStatus.paid
          · simp [payrollUnlock, hr] at hs
          · rw [payrollUnlock] at hs
            simp only [if_neg hr] at hs
            cases hs
            simp [PayrollError.reason]
  · cases ps with
    | none => simp [showMarkPaidButton, showSubmitButton, showUnlockButton]
    | some p =>
      refine ⟨?_, ?_, ?_⟩
      · by_cases hp : p.status = "submitted" <;>
          simp [showMarkPaidButton, hp]
      · cases hl : p.is_locked <;> simp [showSubmitButton, hl]
      · cases hl : p.is_locked <;> simp [showUnlockButton, hl]

/-- Witness for C4: mark-paid succeeds on a concrete submitted record
and the submit guard holds for the empty period state, via the main
theorem. -/
theorem payroll_transition_guards_witness :
    (∃ r2, payrollMarkPaid
      (some ⟨PayrollStatus.submitted, true, some 3, none, []⟩) 9 = .ok r2) ∧
    (∃ r2, payrollSubmit none [] 1 = .ok r2) :=
  ⟨(payroll_transition_guards.1
      (some ⟨PayrollStatus.submitted, true, some 3, none, []⟩) 9).2
      ⟨⟨PayrollStatus.submitted, true, some 3, none, []⟩, rfl, rfl⟩,
   (payroll_transition_guards.2.1 none [] 1).2 (fun r hr => by cases hr)⟩

/-- C8: with the spec-required transactional guard, two submits for
the same period serialize; whichever runs first succeeds and locks
the period with its snapshot, and the other observes is_locked and is
rejected with a PayrollStateConflict, leaving exactly the first
submitted record in place. -/
theorem submit_lock_exclusivity (s : Option PayrollRecord)
    (ov1 ov2 : List (Nat × Rat × Rat)) (t1 t2 : Nat)
    (h : ∀ r, s = some r → r.is_locked = false) :
    ∃ r1, payrollSubmit s ov1 t1 = .ok r1 ∧
      r1.status = PayrollStatus.submitted ∧ r1.is_locked = true ∧
      r1.agent_overrides = ov1 ∧
      (∃ e, payrollSubmit (some r1) ov2 t2 = .error e) ∧
      applyPayroll (some r1) (.submit ov2 t2) =
        (some r1,
         some (.stateConflict "period is locked; unlock the period first")) := by
  cases s with
  | none =>
    refine ⟨⟨PayrollStatus.submitted, true, some t1, none, ov1⟩,
      rfl, rfl, rfl, rfl, ⟨_, rfl⟩, rfl⟩
  | some r =>
    have hl : r.is_locked = false := h r rfl
    refine ⟨⟨PayrollStatus.submitted, true, some t1, r.paid_at, ov1⟩,
      ?_, rfl, rfl, rfl, ⟨_, rfl⟩, rfl⟩
    simp [payrollSubmit, hl]

/-- Witness for C8: two concrete submits against an unsubmitted
period. -/
theorem submit_lock_exclusivity_witness :
    ∃ r1, payrollSubmit none [(1, 5/1000, 0)] 1 = .ok r1 ∧
      r1.status = PayrollStatus.submitted ∧ r1.is_locked = true ∧
      r1.agent_overrides = [(1, 5/1000, 0)] ∧
      (∃ e, payrollSubmit (some r1) [] 2 = .error e) ∧
      applyPayroll (some r1) (.submit [] 2) =
        (some r1,
         some (.stateConflict "period is locked; unlock the period first")) :=
  submit_lock_exclusivity none [(1, 5/1000, 0)] [] 1 2 (fun r hr => by cases hr)

/-
Part 6: the tier resolver and the commission calculator aggregation.
Both backend services are absent from the repository sources (the
Agent Pay tab only displays their output), so they are modelled from
sections 4.3 and 4.4 of the specification.
-/

/-- Modelled from the spec: one CommissionTier row; a missing max
means the unbounded top tier.  The backend tier configuration service
is missing from the sources. -/
structure CommissionTier where
  tier_level : Nat
  min_written_premium : Rat
  max_written_premium : Option Rat
  commission_rate : Rat
deriving Repr, DecidableEq

/-- Modelled from the spec: lookup of the tier matching a premium in
the ordered tier table; ranges are min-inclusive and max-exclusive,
with the unbounded top tier having no max. -/
def tierFor (tiers : List CommissionTier) (p : Rat) : Option CommissionTier :=
  tiers.find? (fun t =>
    decide (t.min_written_premium ≤ p) &&
      (match t.max_written_premium with
       | none => true
       | some m => decide (p < m)))

/-- A statement period as a year and a month number. -/
structure Period where
  year : Nat
  month : Nat
deriving Repr, DecidableEq

/-- The calendar month prior to a period. -/
def priorPeriod (p : Period) : Period :=
  if p.month = 1 then ⟨p.year - 1, 12⟩ else ⟨p.year, p.month - 1⟩

/-- Modelled from the spec: the Tier Resolver, which is missing from
the sources.  monthlyPremium gives the total written premium of the
agent per month; the tier for a target period is looked up from the
premium of the month prior to the target (one-month lookback). -/
def resolveTier (tiers : List CommissionTier)
    (monthlyPremium : Period → Rat) (target : Period) :
    Option CommissionTier :=
  tierFor tiers (monthlyPremium (priorPeriod target))

/-- The three default tiers documented in the README: up to 50K at
10 percent, 50K to 100K at 12.5 percent, 100K and above at
15 percent. -/
def defaultTiers : List CommissionTier :=
  [⟨1, 0, some 50000, 1/10⟩, ⟨2, 50000, some 100000, 1/8⟩,
   ⟨3, 100000, none, 3/20⟩]

/-- Modelled from the spec: the signed-aggregation summary of the
Commission Calculator, which is missing from the sources.  Total
agent commission is the signed sum of per-line commission (premium
times rate); chargebacks are counted and tracked separately but are
netted into the total rather than excluded, and the total is not
floored at zero. -/
structure CalcSummary where
  total_agent_commission : Rat
  chargeback_count : Nat
  chargeback_premium : Rat
deriving Repr, DecidableEq

/-- Modelled from the spec: computeAgentCommission over the premiums
of one agent and the resolved rate. -/
def computeAgentCommission (premiums : List Rat) (rate : Rat) : CalcSummary :=
  { total_agent_commission := (premiums.map (fun p => p * rate)).sum
    chargeback_count := (premiums.filter (fun p => p < 0)).length
    chargeback_premium := (premiums.filter (fun p => p < 0)).sum }

/-
Theorems for claims C2 and C3.
-/

/-- C2: lines with negative premium subtract from the period total
rather than being excluded: the total is the signed sum, for premiums
[+1000, +500, -300] the chargeback makes the total less than the
positive-only sum, and when chargebacks exceed new production the
total is negative — the calculator does not floor at zero. -/
theorem chargeback_signed_sum (rate : Rat) (h : 0 < rate) :
    (∀ premiums : List Rat,
      (computeAgentCommission premiums rate).total_agent_commission
        = premiums.sum * rate) ∧
    (computeAgentCommission [1000, 500, -300] rate).total_agent_commission
      = 1200 * rate ∧
    (computeAgentCommission [1000, 500, -300] rate).total_agent_commission
      < (computeAgentCommission [1000, 500] rate).total_agent_commission ∧
    (computeAgentCommission [200, -500] rate).total_agent_commission < 0 := by
  have hsum : ∀ premiums : List Rat,
      (computeAgentCommission premiums rate).total_agent_commission
        = premiums.sum * rate := by
    intro premiums
    show ((premiums.map (fun p => p * rate)).sum) = premiums.sum * rate
    induction premiums with
    | nil => simp
    | cons p t ih => simp [ih, add_mul]
  refine ⟨hsum, ?_, ?_, ?_⟩
  · rw [hsum]; norm_num
  · rw [hsum, hsum]
    have h1200 : ((1000 : Rat) + (500 + (-300 + 0))) = 1200 := by norm_num
    have h1500 : ((1000 : Rat) + (500 + 0)) = 1500 := by norm_num
    show ([(1000 : Rat), 500, -300].sum) * rate < ([(1000 : Rat), 500].sum) * rate
    simp only [List.sum_cons, List.sum_nil]
    rw [h1200, h1500]
    exact mul_lt_mul_of_pos_right (by norm_num) h
  · rw [hsum]
    show ([(200 : Rat), -500].sum) * rate < 0
    simp only [List.sum_cons, List.sum_nil]
    have hneg : ((200 : Rat) + (-500 + 0)) = -300 := by norm_num
    rw [hneg]
    exact mul_neg_of_neg_of_pos (by norm_num) h

/-- Witness for C2 at the default 10 percent tier rate. -/
theorem chargeback_signed_sum_witness :
    (computeAgentCommission [1000, 500, -300] (1/10)).total_agent_commission
      = 1200 * (1/10) ∧
    (computeAgentCommission [1000, 500, -300] (1/10)).total_agent_commission
      < (computeAgentCommission [1000, 500] (1/10)).total_agent_commission ∧
    (computeAgentCommission [200, -500] (1/10)).total_agent_commission < 0 :=
  ⟨(chargeback_signed_sum (1/10) (by norm_num)).2.1,
   (chargeback_signed_sum (1/10) (by norm_num)).2.2.1,
   (chargeback_signed_sum (1/10) (by norm_num)).2.2.2⟩

/-- C3: the commission rate for a target period is resolved from the
agent premium of the month prior to the target, looked up in the
ordered tier table; it does not depend on the target month premium —
any two premium histories agreeing on the prior month resolve to the
same tier. -/
theorem tier_rate_one_month_lookback (tiers : List CommissionTier)
    (f g : Period → Rat) (target : Period)
    (h : f (priorPeriod target) = g (priorPeriod target)) :
    resolveTier tiers f target
      = tierFor tiers (f (priorPeriod target)) ∧
    resolveTier tiers f target = resolveTier tiers g target := by
  refine ⟨rfl, ?_⟩
  unfold resolveTier
  rw [h]

/-- Witness for C3: with the default tiers, a history with 60K of
prior-month premium resolves tier 2 for 2024-01 even though the two
histories disagree wildly on the target month itself. -/
theorem tier_rate_one_month_lookback_witness :
    resolveTier defaultTiers
        (fun p => if p = ⟨2023, 12⟩ then 60000 else 200000) ⟨2024, 1⟩
      = tierFor defaultTiers
          ((fun p : Period => if p = ⟨2023, 12⟩ then (60000 : Rat) else 200000)
            (priorPeriod ⟨2024, 1⟩)) ∧
    resolveTier defaultTiers
        (fun p => if p = ⟨2023, 12⟩ then 60000 else 200000) ⟨2024, 1⟩
      = resolveTier defaultTiers
          (fun p => if p = ⟨2023, 12⟩ then 60000 else 0) ⟨2024, 1⟩ :=
  tier_rate_one_month_lookback defaultTiers
    (fun p => if p = ⟨2023, 12⟩ then 60000 else 200000)
    (fun p => if p = ⟨2023, 12⟩ then 60000 else 0) ⟨2024, 1⟩ (by norm_num [priorPeriod])

end BetterChoice
